import Mathlib

/-!
Shallow embedding of the MOSIP notification-system dispatch engine
(`notification_core.py`, `senders/*.py`, `messages/__init__.py`,
`messages/en.py`) and proofs of the specification claims about it.

Python values are modelled as follows: optional strings become
`Option String` (Python `None` is `none`), Python truthiness tests on
optional strings (`if not x`) become `falsy`, `datetime.date` becomes
`PyDate`, dictionaries used as JSON payloads become the `Json` inductive,
and the outbound `requests.post` call becomes an oracle argument
`post : HttpCall → Option HttpResponse` (`none` models a transport-level
`RequestException`). Each sender returns, besides its boolean result, the
list of outbound HTTP calls it performed, so that "performs zero outbound
calls" and "posts exactly this payload" are statable.
-/

/-- `NotificationChannel` enum from notification_core.py. -/
inductive NotificationChannel
  | EMAIL
  | SMS
  | WHATSAPP
  | TELEGRAM
  | VIBER
deriving DecidableEq, Repr

/-- `datetime.date`: a calendar date with no time component. -/
structure PyDate where
  year : Nat
  month : Nat
  day : Nat
deriving DecidableEq, Repr

/-- Zero-padded two-digit rendering used by `strftime` for `%d` and `%m`. -/
def pad2 (n : Nat) : String :=
  if n < 10 then "0" ++ Nat.repr n else Nat.repr n

/-- `d.strftime("%d-%m-%Y")` as used by all three senders. -/
def strftimeDMY (d : PyDate) : String :=
  pad2 d.day ++ "-" ++ pad2 d.month ++ "-" ++ Nat.repr d.year

/-- The shared inline expression
`request.expiry_date.strftime("%d-%m-%Y") if request.expiry_date else "N/A"`. -/
def formatExpiryDate : Option PyDate → String
  | some d => strftimeDMY d
  | none => "N/A"

/-- `NotificationRequest` dataclass from notification_core.py, with the field
defaults its field annotations declare.  Note: the Python source orders the
non-default field `channels` after defaulted fields, which makes the
`@dataclass` decorator raise `TypeError` at class-definition time; this
record models the dataclass the annotations describe (see claim C9). -/
structure NotificationRequest where
  recipient_email : Option String := none
  recipient_phone_number : Option String := none
  telegram_chat_id : Option String := none
  viber_user_id : Option String := none
  message_subject : Option String := none
  message_body : Option String := none
  expiry_type : String := "Certificate"
  expiry_date : Option PyDate := none
  action_steps : String := "Please renew your credential."
  channels : List NotificationChannel
  locale : String := "en"

/-- Python truthiness test `not x` on an optional string: `None` and the
empty string are falsy. -/
def falsy : Option String → Bool
  | none => true
  | some s => s = ""

/-- Rendering of an optional string inside a Python f-string
(`None` prints as "None"). -/
def pyStrOpt : Option String → String
  | none => "None"
  | some s => s

/-- Behaviour of one sender's `send`, as observed by the dispatcher: a
function of the request that either returns a boolean or raises an
exception (modelled as `Except.error` carrying the message). -/
def SenderBehavior : Type := NotificationRequest → Except String Bool

/-- One per-channel outcome of the dispatch loop, mirroring the
diagnostic prints of `NotificationService.send_notification`:
`attempted ch b` means the registered sender was invoked and returned `b`,
`errored ch` means it was invoked and raised, `skipped ch` means no sender
is registered for `ch`. -/
inductive DispatchEvent
  | attempted (ch : NotificationChannel) (ok : Bool)
  | errored (ch : NotificationChannel)
  | skipped (ch : NotificationChannel)
deriving DecidableEq, Repr

/-- The `for channel in request.channels` loop of `send_notification`,
threading `overall_success` as the accumulator and recording one
`DispatchEvent` per list element. -/
def dispatchLoop (senders : NotificationChannel → Option SenderBehavior)
    (req : NotificationRequest) :
    List NotificationChannel → Bool → Bool × List DispatchEvent
  | [], acc => (acc, [])
  | ch :: rest, acc =>
    match senders ch with
    | some f =>
      match f req with
      | .ok true =>
        let r := dispatchLoop senders req rest true
        (r.1, .attempted ch true :: r.2)
      | .ok false =>
        let r := dispatchLoop senders req rest acc
        (r.1, .attempted ch false :: r.2)
      | .error _ =>
        let r := dispatchLoop senders req rest acc
        (r.1, .errored ch :: r.2)
    | none =>
      let r := dispatchLoop senders req rest acc
      (r.1, .skipped ch :: r.2)

/-- `NotificationService.send_notification`: returns `False` immediately on
an empty channel list, otherwise runs the dispatch loop with
`overall_success` initially `False`. -/
def NotificationService.send_notification
    (senders : NotificationChannel → Option SenderBehavior)
    (req : NotificationRequest) : Bool × List DispatchEvent :=
  if req.channels.isEmpty then (false, [])
  else dispatchLoop senders req req.channels false

/-- The event the loop records for one channel occurrence. -/
def channelEvent (senders : NotificationChannel → Option SenderBehavior)
    (req : NotificationRequest) (ch : NotificationChannel) : DispatchEvent :=
  match senders ch with
  | some f =>
    match f req with
    | .ok b => .attempted ch b
    | .error _ => .errored ch
  | none => .skipped ch

/-- Whether the sender registered for `ch` (if any) is invoked successfully
on `req`. -/
def attemptSucceeds (senders : NotificationChannel → Option SenderBehavior)
    (req : NotificationRequest) (ch : NotificationChannel) : Bool :=
  match senders ch with
  | some f =>
    match f req with
    | .ok true => true
    | _ => false
  | none => false

/-- JSON values, modelling the Python dicts passed as `json=payload` to
`requests.post`. -/
inductive Json
  | null
  | str (s : String)
  | obj (fields : List (String × Json))
  | arr (elems : List Json)

/-- JSON rendering of an optional string (`None` serializes as null). -/
def Json.ofOptStr : Option String → Json
  | none => .null
  | some s => .str s

/-- Field lookup in a JSON object. -/
def Json.get : Json → String → Option Json
  | .obj fields, k => fields.lookup k
  | _, _ => none

/-- Element lookup in a JSON array. -/
def Json.item : Json → Nat → Option Json
  | .arr elems, i => elems.get? i
  | _, _ => none

/-- An HTTP response as the senders observe it: its status code, whether
its body parses as JSON (`response.json()` succeeds), and its text. -/
structure HttpResponse where
  status : Nat
  validJson : Bool
  text : String

/-- One outbound `requests.post(url, json=payload, headers=headers)` call.
Telegram passes no explicit headers, so its calls carry `[]`. -/
structure HttpCall where
  url : String
  payload : Json
  headers : List (String × String)

/-- Oracle for the transport: what `requests.post` does on a given call.
`none` models a transport-level `requests.exceptions.RequestException`
raised by `post` itself. -/
def HttpPost : Type := HttpCall → Option HttpResponse

/-- The `requests.exceptions.RequestException` values the senders' try
blocks can raise: a transport error from `post`, an `HTTPError` from
`response.raise_for_status()` (raised when 400 ≤ status < 600), or a
`JSONDecodeError` from the `response.json()` in the success log line. -/
inductive RequestException
  | connectionError
  | httpError (status : Nat)
  | jsonDecodeError

/-- The shared body of each sender's `try` block:
`response = requests.post(...)`; `response.raise_for_status()`;
`print(... response.json())`; `return True`. -/
def attemptPost (post : HttpPost) (call : HttpCall) : Except RequestException Bool :=
  match post call with
  | none => .error .connectionError
  | some resp =>
    if 400 ≤ resp.status ∧ resp.status < 600 then .error (.httpError resp.status)
    else if resp.validJson then .ok true
    else .error .jsonDecodeError

/-- The shared `except requests.exceptions.RequestException` handler:
every caught exception becomes `False`. -/
def catchRequestException : Except RequestException Bool → Bool
  | .ok b => b
  | .error _ => false

/-- Left brace character (other than in the message tables, it only occurs
in format templates). -/
def lbrace : Char := Char.ofNat 123

/-- Right brace character. -/
def rbrace : Char := Char.ofNat 125

/-- The exceptions `str.format` can raise on the templates in play:
`IndexError` when an automatic `\x7b\x7d` field has no matching positional
argument, and the catch-all for every other failure (`ValueError` on a
stray brace, `KeyError` on a named field, ...), which
`get_localized_message` treats uniformly. -/
inductive FormatErr
  | indexError
  | valueError
deriving DecidableEq, Repr

/-- `str.format(*args)` on a template, restricted to the constructs the
message tables use: literal text, automatic positional fields `\x7b\x7d`,
and the doubled-brace escapes; any other brace construct is modelled as a
formatting failure. -/
def pyFormatAux : List Char → List String → Except FormatErr (List Char)
  | [], _ => .ok []
  | c :: rest, args =>
    if c = lbrace then
      match rest with
      | [] => .error .valueError
      | c2 :: rest2 =>
        if c2 = lbrace then (fun t => c :: t) <$> pyFormatAux rest2 args
        else if c2 = rbrace then
          match args with
          | [] => .error .indexError
          | a :: args2 => (fun t => a.data ++ t) <$> pyFormatAux rest2 args2
        else .error .valueError
    else if c = rbrace then
      match rest with
      | [] => .error .valueError
      | c2 :: rest2 =>
        if c2 = rbrace then (fun t => c :: t) <$> pyFormatAux rest2 args
        else .error .valueError
    else (fun t => c :: t) <$> pyFormatAux rest args

/-- `template.format(*args)` as a fallible operation. -/
def pyFormat (template : String) (args : List String) : Except FormatErr String :=
  (fun l => String.mk l) <$> pyFormatAux template.data args

/-- `messages/en.py`: the English message templates. -/
def enMessages : List (String × String) :=
  [("whatsapp.expiry.message",
    "Dear User, your \x7b\x7d will expire on \x7b\x7d. Please take the following action: \x7b\x7d."),
   ("telegram.expiry.message",
    "Alert: Your \x7b\x7d expires on \x7b\x7d. Action required: \x7b\x7d."),
   ("viber.expiry.message",
    "Important: \x7b\x7d expires \x7b\x7d. Next steps: \x7b\x7d.")]

/-- `_messages` in messages/__init__.py: only the "en" bundle is wired in
(the French bundle is commented out). -/
def messagesTable : List (String × List (String × String)) :=
  [("en", enMessages)]

/-- `get_localized_message` from messages/__init__.py:
`_messages.get(locale, _messages["en"])`, then
`bundle.get(key, f"Missing message for key: ...")`, then
`template.format(*args)` with both `IndexError` and the generic handler
returning the unformatted template. -/
def get_localized_message (key : String) (locale : String) (args : List String) : String :=
  let message_bundle := (messagesTable.lookup locale).getD enMessages
  let message_template :=
    (message_bundle.lookup key).getD ("Missing message for key: " ++ key)
  match pyFormat message_template args with
  | .ok s => s
  | .error _ => message_template

/-- Configuration the WhatsApp sender captures at construction
(`config.py`: the token and phone-number id come from `os.getenv` and may
be absent). -/
structure WhatsAppConfig where
  api_url : String
  access_token : Option String
  from_phone_number_id : Option String
  template_name : String

/-- Configuration the Telegram sender captures at construction. -/
structure TelegramConfig where
  api_url : String
  bot_token : Option String

/-- Configuration the Viber sender captures at construction. -/
structure ViberConfig where
  api_url : String
  auth_token : Option String
  sender_name : String
  sender_avatar : String

/-- The WhatsApp template payload built by `WhatsAppSender.send`. -/
def WhatsAppSender.payload (s : WhatsAppConfig) (req : NotificationRequest) : Json :=
  .obj [("messaging_product", .str "whatsapp"),
        ("to", Json.ofOptStr req.recipient_phone_number),
        ("type", .str "template"),
        ("template", .obj
          [("name", .str s.template_name),
           ("language", .obj [("code", .str req.locale)]),
           ("components", .arr
             [.obj [("type", .str "body"),
                    ("parameters", .arr
                      [.obj [("type", .str "text"), ("text", .str req.expiry_type)],
                       .obj [("type", .str "text"),
                             ("text", .str (formatExpiryDate req.expiry_date))],
                       .obj [("type", .str "text"), ("text", .str req.action_steps)]])]])])]

/-- The WhatsApp request headers: bearer-token authorization. -/
def WhatsAppSender.callHeaders (s : WhatsAppConfig) : List (String × String) :=
  [("Authorization", "Bearer " ++ pyStrOpt s.access_token),
   ("Content-Type", "application/json")]

/-- `f"\x7bself.api_url\x7d/\x7bself.from_phone_number_id\x7d/messages"`. -/
def WhatsAppSender.endpoint (s : WhatsAppConfig) : String :=
  s.api_url ++ "/" ++ pyStrOpt s.from_phone_number_id ++ "/messages"

/-- The single outbound call `WhatsAppSender.send` performs. -/
def WhatsAppSender.httpCall (s : WhatsAppConfig) (req : NotificationRequest) : HttpCall :=
  ⟨WhatsAppSender.endpoint s, WhatsAppSender.payload s req, WhatsAppSender.callHeaders s⟩

/-- `WhatsAppSender.send`, returning its boolean result and the outbound
calls it performed. -/
def WhatsAppSender.send (s : WhatsAppConfig) (post : HttpPost)
    (req : NotificationRequest) : Bool × List HttpCall :=
  if falsy req.recipient_phone_number then (false, [])
  else if falsy s.access_token || falsy s.from_phone_number_id then (false, [])
  else
    let call := WhatsAppSender.httpCall s req
    (catchRequestException (attemptPost post call), [call])

/-- The localized Telegram message text. -/
def TelegramSender.messageText (req : NotificationRequest) : String :=
  get_localized_message "telegram.expiry.message" req.locale
    [req.expiry_type, formatExpiryDate req.expiry_date, req.action_steps]

/-- `f"\x7bself.api_url\x7d\x7bself.bot_token\x7d/sendMessage"`. -/
def TelegramSender.endpoint (s : TelegramConfig) : String :=
  s.api_url ++ pyStrOpt s.bot_token ++ "/sendMessage"

/-- The Telegram payload `\x7bchat_id, text\x7d`. -/
def TelegramSender.payload (req : NotificationRequest) : Json :=
  .obj [("chat_id", Json.ofOptStr req.telegram_chat_id),
        ("text", .str (TelegramSender.messageText req))]

/-- The single outbound call `TelegramSender.send` performs (no explicit
headers: the token travels in the path). -/
def TelegramSender.httpCall (s : TelegramConfig) (req : NotificationRequest) : HttpCall :=
  ⟨TelegramSender.endpoint s, TelegramSender.payload req, []⟩

/-- `TelegramSender.send`. -/
def TelegramSender.send (s : TelegramConfig) (post : HttpPost)
    (req : NotificationRequest) : Bool × List HttpCall :=
  if falsy req.telegram_chat_id then (false, [])
  else if falsy s.bot_token then (false, [])
  else
    let call := TelegramSender.httpCall s req
    (catchRequestException (attemptPost post call), [call])

/-- The localized Viber message text. -/
def ViberSender.messageText (req : NotificationRequest) : String :=
  get_localized_message "viber.expiry.message" req.locale
    [req.expiry_type, formatExpiryDate req.expiry_date, req.action_steps]

/-- The Viber payload with receiver, text and sender metadata. -/
def ViberSender.payload (s : ViberConfig) (req : NotificationRequest) : Json :=
  .obj [("receiver", Json.ofOptStr req.viber_user_id),
        ("type", .str "text"),
        ("text", .str (ViberSender.messageText req)),
        ("sender", .obj [("name", .str s.sender_name),
                         ("avatar", .str s.sender_avatar)])]

/-- The Viber request headers: the auth token header. -/
def ViberSender.callHeaders (s : ViberConfig) : List (String × String) :=
  [("X-Viber-Auth-Token", pyStrOpt s.auth_token),
   ("Content-Type", "application/json")]

/-- `f"\x7bself.api_url\x7dsend_message"`. -/
def ViberSender.endpoint (s : ViberConfig) : String :=
  s.api_url ++ "send_message"

/-- The single outbound call `ViberSender.send` performs. -/
def ViberSender.httpCall (s : ViberConfig) (req : NotificationRequest) : HttpCall :=
  ⟨ViberSender.endpoint s, ViberSender.payload s req, ViberSender.callHeaders s⟩

/-- `ViberSender.send`. -/
def ViberSender.send (s : ViberConfig) (post : HttpPost)
    (req : NotificationRequest) : Bool × List HttpCall :=
  if falsy req.viber_user_id then (false, [])
  else if falsy s.auth_token then (false, [])
  else
    let call := ViberSender.httpCall s req
    (catchRequestException (attemptPost post call), [call])

/-- The components array of a WhatsApp template payload. -/
def whatsAppComponents (payload : Json) : Option Json :=
  (payload.get "template").bind (fun t => Json.get t "components")

/-- The language code of a WhatsApp template payload. -/
def whatsAppLanguageCode (payload : Json) : Option Json :=
  ((payload.get "template").bind (fun t => Json.get t "language")).bind
    (fun l => Json.get l "code")

/-- The "text" of the i-th parameter of the first body component of a
WhatsApp template payload. -/
def whatsAppBodyParam (payload : Json) (i : Nat) : Option Json :=
  (((((whatsAppComponents payload).bind (fun cs => Json.item cs 0)).bind
      (fun b => Json.get b "parameters")).bind
      (fun ps => Json.item ps i)).bind
      (fun p => Json.get p "text"))

/-- Sender behaviour that always reports success. -/
def exOk : SenderBehavior := fun _ => Except.ok true

/-- Sender behaviour that always reports failure. -/
def exFail : SenderBehavior := fun _ => Except.ok false

/-- Sender behaviour that always raises. -/
def exRaise : SenderBehavior := fun _ => Except.error "boom"

/-- Registry with a succeeding Telegram sender and a failing Viber sender. -/
def sendersTV : NotificationChannel → Option SenderBehavior
  | .TELEGRAM => some exOk
  | .VIBER => some exFail
  | _ => none

/-- Registry whose only registered sender, Telegram, raises. -/
def sendersErr : NotificationChannel → Option SenderBehavior
  | .TELEGRAM => some exRaise
  | _ => none

/-- Request for channels [TELEGRAM, VIBER], other fields defaulted. -/
def reqTV : NotificationRequest := { channels := [.TELEGRAM, .VIBER] }

/-- Request for the single, unregistered, EMAIL channel. -/
def reqEmailOnly : NotificationRequest := { channels := [.EMAIL] }

/-- Request with an empty channel list and no addressing fields. -/
def reqEmpty : NotificationRequest := { channels := [] }

/-- Fully addressed request dated 2025-12-31, other fields defaulted. -/
def reqDec31 : NotificationRequest :=
  { channels := [.WHATSAPP, .TELEGRAM, .VIBER],
    recipient_phone_number := some "15551234567",
    telegram_chat_id := some "42",
    viber_user_id := some "vb1",
    expiry_date := some ⟨2025, 12, 31⟩ }

/-- Request with no expiry date. -/
def reqNoDate : NotificationRequest := { channels := [.TELEGRAM] }

/-- Request whose addressing fields are all present but empty strings. -/
def reqEmptyAddr : NotificationRequest :=
  { channels := [.WHATSAPP, .TELEGRAM, .VIBER],
    recipient_phone_number := some "",
    telegram_chat_id := some "",
    viber_user_id := some "" }

/-- A fully configured WhatsApp sender. -/
def wsEx : WhatsAppConfig :=
  ⟨"https://graph.facebook.com/v19.0", some "tok", some "12345", "expiry_alert_template"⟩

/-- A WhatsApp sender whose access token was never set. -/
def wsNoTok : WhatsAppConfig :=
  ⟨"https://graph.facebook.com/v19.0", none, some "12345", "expiry_alert_template"⟩

/-- A WhatsApp sender whose access token is the empty string. -/
def wsEmptyTok : WhatsAppConfig :=
  ⟨"https://graph.facebook.com/v19.0", some "", some "12345", "expiry_alert_template"⟩

/-- A fully configured Telegram sender. -/
def tsEx : TelegramConfig := ⟨"https://api.telegram.org/bot", some "bottok"⟩

/-- A Telegram sender whose bot token was never set. -/
def tsNoTok : TelegramConfig := ⟨"https://api.telegram.org/bot", none⟩

/-- A Telegram sender whose bot token is the empty string. -/
def tsEmptyTok : TelegramConfig := ⟨"https://api.telegram.org/bot", some ""⟩

/-- A fully configured Viber sender. -/
def vsEx : ViberConfig := ⟨"https://chatapi.viber.com/pa/", some "vtok", "MOSIP Alerts", ""⟩

/-- A Viber sender whose auth token was never set. -/
def vsNoTok : ViberConfig := ⟨"https://chatapi.viber.com/pa/", none, "MOSIP Alerts", ""⟩

/-- A Viber sender whose auth token is the empty string. -/
def vsEmptyTok : ViberConfig := ⟨"https://chatapi.viber.com/pa/", some "", "MOSIP Alerts", ""⟩

/-- Transport oracle on which every call fails at the transport level. -/
def postDown : HttpPost := fun _ => none

theorem dispatchLoop_snd (senders : NotificationChannel → Option SenderBehavior)
    (req : NotificationRequest) :
    ∀ (l : List NotificationChannel) (acc : Bool),
      (dispatchLoop senders req l acc).2 = l.map (channelEvent senders req) := by
  intro l
  induction l with
  | nil => intro acc; rfl
  | cons ch rest ih =>
    intro acc
    simp only [dispatchLoop, channelEvent, List.map]
    cases h : senders ch with
    | none => simp [ih]
    | some f =>
      cases hf : f req with
      | error e => simp [ih, hf]
      | ok b => cases b <;> simp [ih, hf]

theorem dispatchLoop_fst (senders : NotificationChannel → Option SenderBehavior)
    (req : NotificationRequest) :
    ∀ (l : List NotificationChannel) (acc : Bool),
      (dispatchLoop senders req l acc).1
        = (acc || l.any (attemptSucceeds senders req)) := by
  intro l
  induction l with
  | nil => intro acc; simp [dispatchLoop]
  | cons ch rest ih =>
    intro acc
    simp only [dispatchLoop, List.any_cons]
    cases h : senders ch with
    | none => simp [ih, attemptSucceeds, h]
    | some f =>
      cases hf : f req with
      | error e => simp [ih, attemptSucceeds, h, hf]
      | ok b =>
        cases b with
        | true => simp [ih, attemptSucceeds, h, hf]
        | false => simp [ih, attemptSucceeds, h, hf]

theorem attemptSucceeds_iff (senders : NotificationChannel → Option SenderBehavior)
    (req : NotificationRequest) (ch : NotificationChannel) :
    attemptSucceeds senders req ch = true
      ↔ ∃ f, senders ch = some f ∧ f req = Except.ok true := by
  unfold attemptSucceeds
  cases h : senders ch with
  | none => simp
  | some f =>
    cases hf : f req with
    | error e => simp [hf]
    | ok b => cases b <;> simp [hf]

theorem send_notification_fst_iff
    (senders : NotificationChannel → Option SenderBehavior)
    (req : NotificationRequest) :
    (NotificationService.send_notification senders req).1 = true
      ↔ ∃ ch ∈ req.channels, ∃ f, senders ch = some f ∧ f req = Except.ok true := by
  unfold NotificationService.send_notification
  cases hc : req.channels with
  | nil => simp
  | cons c cs =>
    rw [if_neg (by simp)]
    rw [dispatchLoop_fst]
    simp only [Bool.false_or, List.any_eq_true]
    constructor
    · rintro ⟨ch, hmem, hs⟩
      exact ⟨ch, hmem, (attemptSucceeds_iff senders req ch).1 hs⟩
    · rintro ⟨ch, hmem, hs⟩
      exact ⟨ch, hmem, (attemptSucceeds_iff senders req ch).2 hs⟩

theorem send_notification_snd
    (senders : NotificationChannel → Option SenderBehavior)
    (req : NotificationRequest) (h : req.channels ≠ []) :
    (NotificationService.send_notification senders req).2
      = req.channels.map (channelEvent senders req) := by
  unfold NotificationService.send_notification
  obtain ⟨c, cs, hcc⟩ : ∃ c cs, req.channels = c :: cs := by
    cases hx : req.channels with
    | nil => exact absurd hx h
    | cons c cs => exact ⟨c, cs, rfl⟩
  rw [hcc, if_neg (by simp)]
  exact dispatchLoop_snd senders req (c :: cs) false

theorem string_mk_data (s : String) : String.mk s.data = s := by
  cases s
  rfl

theorem string_data_append (a b : String) : (a ++ b).data = a.data ++ b.data := by
  cases a
  cases b
  rfl

theorem pyFormatAux_braceFree (l : List Char) (args : List String)
    (h : ∀ c ∈ l, c ≠ lbrace ∧ c ≠ rbrace) :
    pyFormatAux l args = Except.ok l := by
  induction l with
  | nil => rfl
  | cons c rest ih =>
    have hc := h c (List.mem_cons_self c rest)
    have hr : ∀ x ∈ rest, x ≠ lbrace ∧ x ≠ rbrace :=
      fun x hx => h x (List.mem_cons_of_mem c hx)
    unfold pyFormatAux
    rw [if_neg hc.1, if_neg hc.2, ih hr]
    rfl

theorem pyFormat_braceFree (s : String) (args : List String)
    (h : ∀ c ∈ s.data, c ≠ lbrace ∧ c ≠ rbrace) :
    pyFormat s args = Except.ok s := by
  unfold pyFormat
  rw [pyFormatAux_braceFree s.data args h]
  show Except.ok (String.mk s.data) = Except.ok s
  rw [string_mk_data]

theorem sentinelPrefix_braceFree :
    ∀ c ∈ ("Missing message for key: " : String).data, c ≠ lbrace ∧ c ≠ rbrace := by
  decide

theorem messagesTable_lookup_ne (locale : String) (h : locale ≠ "en") :
    messagesTable.lookup locale = none := by
  have hb : (locale == "en") = false := beq_eq_false_iff_ne.mpr h
  simp [messagesTable, List.lookup, hb]

theorem get_localized_message_fallback (key locale : String) (args : List String)
    (h : locale ≠ "en") :
    get_localized_message key locale args = get_localized_message key "en" args := by
  unfold get_localized_message
  rw [messagesTable_lookup_ne locale h]
  rfl

theorem get_localized_message_missing (key : String) (args : List String)
    (hk : enMessages.lookup key = none)
    (hbf : ∀ c ∈ key.data, c ≠ lbrace ∧ c ≠ rbrace) :
    get_localized_message key "en" args = "Missing message for key: " ++ key := by
  have hsent : ∀ c ∈ ("Missing message for key: " ++ key).data,
      c ≠ lbrace ∧ c ≠ rbrace := by
    intro c hcmem
    rw [string_data_append] at hcmem
    rcases List.mem_append.1 hcmem with h1 | h2
    · exact sentinelPrefix_braceFree c h1
    · exact hbf c h2
  unfold get_localized_message
  rw [show messagesTable.lookup "en" = some enMessages from rfl]
  simp only [Option.getD_some]
  rw [hk]
  simp only [Option.getD_none]
  rw [pyFormat_braceFree _ args hsent]

theorem get_localized_message_found_err (key t : String) (args : List String) (e : FormatErr)
    (hk : enMessages.lookup key = some t) (hf : pyFormat t args = Except.error e) :
    get_localized_message key "en" args = t := by
  unfold get_localized_message
  rw [show messagesTable.lookup "en" = some enMessages from rfl]
  simp only [Option.getD_some]
  rw [hk]
  simp only [Option.getD_some]
  rw [hf]

theorem get_localized_message_found_ok (key t : String) (args : List String) (s : String)
    (hk : enMessages.lookup key = some t) (hf : pyFormat t args = Except.ok s) :
    get_localized_message key "en" args = s := by
  unfold get_localized_message
  rw [show messagesTable.lookup "en" = some enMessages from rfl]
  simp only [Option.getD_some]
  rw [hk]
  simp only [Option.getD_some]
  rw [hf]

theorem attemptPost_true_iff (post : HttpPost) (call : HttpCall) :
    catchRequestException (attemptPost post call) = true ↔
      ∃ resp, post call = some resp ∧
        ¬(400 ≤ resp.status ∧ resp.status < 600) ∧ resp.validJson = true := by
  unfold catchRequestException attemptPost
  cases h : post call with
  | none => simp
  | some resp =>
    by_cases h4 : 400 ≤ resp.status ∧ resp.status < 600
    · simp [h4]
    · cases hv : resp.validJson
      · simp [h4, hv]
      · simp [h4, hv]
        omega

theorem whatsAppSend_true_iff (s : WhatsAppConfig) (post : HttpPost)
    (req : NotificationRequest) :
    (WhatsAppSender.send s post req).1 = true ↔
      falsy req.recipient_phone_number = false ∧ falsy s.access_token = false ∧
      falsy s.from_phone_number_id = false ∧
      ∃ resp, post (WhatsAppSender.httpCall s req) = some resp ∧
        ¬(400 ≤ resp.status ∧ resp.status < 600) ∧ resp.validJson = true := by
  unfold WhatsAppSender.send
  cases h1 : falsy req.recipient_phone_number with
  | true => simp [h1]
  | false =>
    cases h2 : falsy s.access_token with
    | true => simp [h1, h2]
    | false =>
      cases h3 : falsy s.from_phone_number_id with
      | true => simp [h1, h2, h3]
      | false => simp [h1, h2, h3, attemptPost_true_iff]

theorem telegramSend_true_iff (s : TelegramConfig) (post : HttpPost)
    (req : NotificationRequest) :
    (TelegramSender.send s post req).1 = true ↔
      falsy req.telegram_chat_id = false ∧ falsy s.bot_token = false ∧
      ∃ resp, post (TelegramSender.httpCall s req) = some resp ∧
        ¬(400 ≤ resp.status ∧ resp.status < 600) ∧ resp.validJson = true := by
  unfold TelegramSender.send
  cases h1 : falsy req.telegram_chat_id with
  | true => simp [h1]
  | false =>
    cases h2 : falsy s.bot_token with
    | true => simp [h1, h2]
    | false => simp [h1, h2, attemptPost_true_iff]

theorem viberSend_true_iff (s : ViberConfig) (post : HttpPost)
    (req : NotificationRequest) :
    (ViberSender.send s post req).1 = true ↔
      falsy req.viber_user_id = false ∧ falsy s.auth_token = false ∧
      ∃ resp, post (ViberSender.httpCall s req) = some resp ∧
        ¬(400 ≤ resp.status ∧ resp.status < 600) ∧ resp.validJson = true := by
  unfold ViberSender.send
  cases h1 : falsy req.viber_user_id with
  | true => simp [h1]
  | false =>
    cases h2 : falsy s.auth_token with
    | true => simp [h1, h2]
    | false => simp [h1, h2, attemptPost_true_iff]

/-- Claim C1: `send_notification` returns true iff at least one requested
channel has a registered sender whose invocation on the request returns
true, and on an empty channel list it returns false having invoked no
sender (empty trace). -/
theorem claim_C1 (senders : NotificationChannel → Option SenderBehavior)
    (req : NotificationRequest) :
    (req.channels = [] →
      NotificationService.send_notification senders req = (false, [])) ∧
    ((NotificationService.send_notification senders req).1 = true ↔
      ∃ ch ∈ req.channels, ∃ f, senders ch = some f ∧ f req = Except.ok true) := by
  constructor
  · intro h
    simp [NotificationService.send_notification, h]
  · exact send_notification_fst_iff senders req

/-- Witness for C1 at a concrete registry and request. -/
theorem claim_C1_witness :
    NotificationService.send_notification sendersTV reqEmpty = (false, []) ∧
    (NotificationService.send_notification sendersTV reqTV).1 = true := by
  constructor
  · exact (claim_C1 sendersTV reqEmpty).1 rfl
  · exact (claim_C1 sendersTV reqTV).2.mpr
      ⟨.TELEGRAM, List.mem_cons_self _ _, exOk, rfl, rfl⟩

/-- Claim C2: `send_notification` is total over arbitrary sender behaviour
(including raising senders): each requested channel occurrence yields
exactly one recorded event even when an earlier sender raised, a raising
sender contributes an `errored` event, overall success still holds iff
some sender invocation returned true (so an exception counts as that
channel's failure), and a single unregistered requested channel yields a
skip and overall result false. -/
theorem claim_C2 (senders : NotificationChannel → Option SenderBehavior)
    (req : NotificationRequest) :
    (req.channels ≠ [] →
      (NotificationService.send_notification senders req).2
        = req.channels.map (channelEvent senders req)) ∧
    (∀ ch f e, ch ∈ req.channels → senders ch = some f → f req = Except.error e →
      DispatchEvent.errored ch ∈ (NotificationService.send_notification senders req).2) ∧
    ((NotificationService.send_notification senders req).1 = true ↔
      ∃ ch ∈ req.channels, ∃ f, senders ch = some f ∧ f req = Except.ok true) ∧
    (∀ c, req.channels = [c] → senders c = none →
      NotificationService.send_notification senders req
        = (false, [DispatchEvent.skipped c])) := by
  refine ⟨send_notification_snd senders req, ?_, send_notification_fst_iff senders req, ?_⟩
  · intro ch f e hmem hs hf
    have hne : req.channels ≠ [] := by
      intro h0
      rw [h0] at hmem
      exact absurd hmem (List.not_mem_nil ch)
    rw [send_notification_snd senders req hne]
    exact List.mem_map.2 ⟨ch, hmem, by simp [channelEvent, hs, hf]⟩
  · intro c hc hnone
    unfold NotificationService.send_notification
    rw [hc]
    simp [dispatchLoop, hnone]

/-- Witness for C2 at a registry whose Telegram sender raises. -/
theorem claim_C2_witness :
    (NotificationService.send_notification sendersErr reqTV).2
      = [DispatchEvent.errored .TELEGRAM, DispatchEvent.skipped .VIBER] ∧
    DispatchEvent.errored .TELEGRAM
      ∈ (NotificationService.send_notification sendersErr reqTV).2 ∧
    (NotificationService.send_notification sendersErr reqTV).1 = false ∧
    NotificationService.send_notification sendersErr reqEmailOnly
      = (false, [DispatchEvent.skipped .EMAIL]) := by
  refine ⟨?_, ?_, ?_, ?_⟩
  · rw [(claim_C2 sendersErr reqTV).1 (by decide)]
    rfl
  · exact (claim_C2 sendersErr reqTV).2.1 .TELEGRAM exRaise "boom"
      (List.mem_cons_self _ _) rfl rfl
  · rw [Bool.eq_false_iff]
    intro htrue
    obtain ⟨ch, hmem, f, hs, hf⟩ := (claim_C2 sendersErr reqTV).2.2.1.mp htrue
    cases ch <;> simp [sendersErr] at hs
    subst hs
    exact absurd hf (by simp [exRaise])
  · exact (claim_C2 sendersErr reqEmailOnly).2.2.2 .EMAIL rfl rfl

/-- Claim C4: for a non-empty channel list the dispatch trace has exactly
one event per occurrence of each requested channel, in list order, with
no short-circuiting; in the [TELEGRAM succeeds, VIBER fails] scenario the
result is true and both senders were invoked once, in that order. -/
theorem claim_C4 (senders : NotificationChannel → Option SenderBehavior)
    (req : NotificationRequest) (h : req.channels ≠ []) :
    (NotificationService.send_notification senders req).2
      = req.channels.map (channelEvent senders req) ∧
    (∀ tg vb : SenderBehavior,
      req.channels = [.TELEGRAM, .VIBER] →
      senders .TELEGRAM = some tg → senders .VIBER = some vb →
      tg req = Except.ok true → vb req = Except.ok false →
      NotificationService.send_notification senders req
        = (true, [DispatchEvent.attempted .TELEGRAM true,
                  DispatchEvent.attempted .VIBER false])) := by
  refine ⟨send_notification_snd senders req h, ?_⟩
  intro tg vb hc htg hvb hok hfail
  unfold NotificationService.send_notification
  rw [hc]
  simp [dispatchLoop, htg, hvb, hok, hfail]

/-- Witness for C4 at the concrete [TELEGRAM, VIBER] scenario. -/
theorem claim_C4_witness :
    (NotificationService.send_notification sendersTV reqTV).2
      = [DispatchEvent.attempted .TELEGRAM true, DispatchEvent.attempted .VIBER false] ∧
    NotificationService.send_notification sendersTV reqTV
      = (true, [DispatchEvent.attempted .TELEGRAM true,
                DispatchEvent.attempted .VIBER false]) := by
  have h := claim_C4 sendersTV reqTV (by decide)
  exact ⟨by rw [h.1]; rfl, h.2 exOk exFail rfl rfl rfl rfl rfl⟩

/-- Claim C3: each sender's send is a total boolean function of the
transport behaviour, with the catch-all for RequestException converting
every failure path to false: the result is true exactly when the guards
pass, the post returns a response, raise_for_status does not raise
(status outside 400..599), and the response body is valid JSON (the
success log calls response.json()). -/
theorem claim_C3 (ws : WhatsAppConfig) (ts : TelegramConfig) (vs : ViberConfig)
    (post : HttpPost) (req : NotificationRequest) :
    ((WhatsAppSender.send ws post req).1 = true ↔
      falsy req.recipient_phone_number = false ∧ falsy ws.access_token = false ∧
      falsy ws.from_phone_number_id = false ∧
      ∃ resp, post (WhatsAppSender.httpCall ws req) = some resp ∧
        ¬(400 ≤ resp.status ∧ resp.status < 600) ∧ resp.validJson = true) ∧
    ((TelegramSender.send ts post req).1 = true ↔
      falsy req.telegram_chat_id = false ∧ falsy ts.bot_token = false ∧
      ∃ resp, post (TelegramSender.httpCall ts req) = some resp ∧
        ¬(400 ≤ resp.status ∧ resp.status < 600) ∧ resp.validJson = true) ∧
    ((ViberSender.send vs post req).1 = true ↔
      falsy req.viber_user_id = false ∧ falsy vs.auth_token = false ∧
      ∃ resp, post (ViberSender.httpCall vs req) = some resp ∧
        ¬(400 ≤ resp.status ∧ resp.status < 600) ∧ resp.validJson = true) :=
  ⟨whatsAppSend_true_iff ws post req, telegramSend_true_iff ts post req,
   viberSend_true_iff vs post req⟩

/-- Claim C5: every sender places `formatExpiryDate request.expiry_date`
at the date position of its payload (WhatsApp body parameter 2,
Telegram/Viber localized text); a present date such as 2025-12-31 renders
zero-padded day-month-year "31-12-2025" and an absent one renders "N/A",
as the concrete English message texts show. -/
theorem claim_C5 (ws : WhatsAppConfig) (vs : ViberConfig) (req : NotificationRequest) :
    whatsAppBodyParam (WhatsAppSender.payload ws req) 1
      = some (.str (formatExpiryDate req.expiry_date)) ∧
    Json.get (TelegramSender.payload req) "text"
      = some (.str (get_localized_message "telegram.expiry.message" req.locale
          [req.expiry_type, formatExpiryDate req.expiry_date, req.action_steps])) ∧
    Json.get (ViberSender.payload vs req) "text"
      = some (.str (get_localized_message "viber.expiry.message" req.locale
          [req.expiry_type, formatExpiryDate req.expiry_date, req.action_steps])) ∧
    formatExpiryDate (some ⟨2025, 12, 31⟩) = "31-12-2025" ∧
    formatExpiryDate none = "N/A" ∧
    TelegramSender.messageText reqDec31
      = "Alert: Your Certificate expires on 31-12-2025. Action required: Please renew your credential.." ∧
    ViberSender.messageText reqDec31
      = "Important: Certificate expires 31-12-2025. Next steps: Please renew your credential.." ∧
    TelegramSender.messageText reqNoDate
      = "Alert: Your Certificate expires on N/A. Action required: Please renew your credential.." := by
  refine ⟨rfl, rfl, rfl, by decide, rfl, by decide, by decide, by decide⟩

/-- Counterexample to C6 as stated: for the absent key "\x7b\x7d" (a key
containing format placeholders) with one argument, the returned string is
the sentinel AFTER formatting, so it no longer identifies the missing
key. -/
theorem claim_C6_counterexample :
    get_localized_message "\x7b\x7d" "en" ["x"] = "Missing message for key: x" ∧
    get_localized_message "\x7b\x7d" "en" ["x"] ≠ "Missing message for key: \x7b\x7d" := by
  constructor
  · decide
  · decide

/-- Claim C6 (amended): get_localized_message always returns a string: an
unknown locale falls back to the "en" table; a key absent from the table
yields the sentinel identifying the key PROVIDED the key contains no brace
characters (the sentinel itself is passed through positional formatting,
which rewrites placeholder braces occurring in the key); when the key is
found, a failing format (including too few arguments) returns the
unformatted template, a successful format its result; in particular two
arguments against the three-placeholder Telegram template return the
unformatted template. -/
theorem claim_C6_amended :
    (∀ (key locale : String) (args : List String), locale ≠ "en" →
      get_localized_message key locale args = get_localized_message key "en" args) ∧
    (∀ (key : String) (args : List String), enMessages.lookup key = none →
      (∀ c ∈ key.data, c ≠ lbrace ∧ c ≠ rbrace) →
      get_localized_message key "en" args = "Missing message for key: " ++ key) ∧
    (∀ (key t : String) (args : List String) (e : FormatErr),
      enMessages.lookup key = some t → pyFormat t args = Except.error e →
      get_localized_message key "en" args = t) ∧
    (∀ (key t s : String) (args : List String),
      enMessages.lookup key = some t → pyFormat t args = Except.ok s →
      get_localized_message key "en" args = s) ∧
    get_localized_message "telegram.expiry.message" "en" ["Certificate", "31-12-2025"]
      = "Alert: Your \x7b\x7d expires on \x7b\x7d. Action required: \x7b\x7d." := by
  refine ⟨get_localized_message_fallback, get_localized_message_missing, ?_, ?_, by decide⟩
  · intro key t args e hk hf
    exact get_localized_message_found_err key t args e hk hf
  · intro key t s args hk hf
    exact get_localized_message_found_ok key t args s hk hf

/-- Witness for the amended C6 at concrete keys, locales and argument
lists. -/
theorem claim_C6_amended_witness :
    get_localized_message "absent.key" "fr" [] = "Missing message for key: absent.key" ∧
    get_localized_message "telegram.expiry.message" "en" ["a", "b"]
      = "Alert: Your \x7b\x7d expires on \x7b\x7d. Action required: \x7b\x7d." ∧
    get_localized_message "viber.expiry.message" "en" ["A", "B", "C"]
      = "Important: A expires B. Next steps: C." := by
  refine ⟨?_, ?_, ?_⟩
  · exact (claim_C6_amended.1 "absent.key" "fr" [] (by decide)).trans
      (claim_C6_amended.2.1 "absent.key" [] (by decide) (by decide))
  · exact claim_C6_amended.2.2.1 "telegram.expiry.message"
      "Alert: Your \x7b\x7d expires on \x7b\x7d. Action required: \x7b\x7d."
      ["a", "b"] FormatErr.indexError (by decide) rfl
  · exact claim_C6_amended.2.2.2.1 "viber.expiry.message"
      "Important: \x7b\x7d expires \x7b\x7d. Next steps: \x7b\x7d."
      "Important: A expires B. Next steps: C." ["A", "B", "C"] (by decide) rfl

/-- Claim C7: a falsy required addressing field, or a falsy credential
value, makes send return false without any outbound call; the configs
admit absent credentials (construction always succeeds, as the witness
configs show), detection happening only inside send. -/
theorem claim_C7 (ws : WhatsAppConfig) (ts : TelegramConfig) (vs : ViberConfig)
    (post : HttpPost) (req : NotificationRequest) :
    (falsy req.recipient_phone_number = true →
      WhatsAppSender.send ws post req = (false, [])) ∧
    (falsy ws.access_token = true ∨ falsy ws.from_phone_number_id = true →
      WhatsAppSender.send ws post req = (false, [])) ∧
    (falsy req.telegram_chat_id = true →
      TelegramSender.send ts post req = (false, [])) ∧
    (falsy ts.bot_token = true →
      TelegramSender.send ts post req = (false, [])) ∧
    (falsy req.viber_user_id = true →
      ViberSender.send vs post req = (false, [])) ∧
    (falsy vs.auth_token = true →
      ViberSender.send vs post req = (false, [])) := by
  refine ⟨?_, ?_, ?_, ?_, ?_, ?_⟩
  · intro h
    simp [WhatsAppSender.send, h]
  · intro h
    unfold WhatsAppSender.send
    cases h1 : falsy req.recipient_phone_number with
    | true => simp [h1]
    | false => rcases h with h | h <;> simp [h1, h]
  · intro h
    simp [TelegramSender.send, h]
  · intro h
    unfold TelegramSender.send
    cases h1 : falsy req.telegram_chat_id with
    | true => simp [h1]
    | false => simp [h1, h]
  · intro h
    simp [ViberSender.send, h]
  · intro h
    unfold ViberSender.send
    cases h1 : falsy req.viber_user_id with
    | true => simp [h1]
    | false => simp [h1, h]

/-- Witness for C7: missing addressing fields and never-set credentials
at concrete configs and requests. -/
theorem claim_C7_witness :
    WhatsAppSender.send wsEx postDown reqEmpty = (false, []) ∧
    WhatsAppSender.send wsNoTok postDown reqDec31 = (false, []) ∧
    TelegramSender.send tsEx postDown reqEmpty = (false, []) ∧
    TelegramSender.send tsNoTok postDown reqDec31 = (false, []) ∧
    ViberSender.send vsEx postDown reqEmpty = (false, []) ∧
    ViberSender.send vsNoTok postDown reqDec31 = (false, []) :=
  ⟨(claim_C7 wsEx tsEx vsEx postDown reqEmpty).1 rfl,
   (claim_C7 wsNoTok tsEx vsEx postDown reqDec31).2.1 (Or.inl rfl),
   (claim_C7 wsEx tsEx vsEx postDown reqEmpty).2.2.1 rfl,
   (claim_C7 wsEx tsNoTok vsEx postDown reqDec31).2.2.2.1 rfl,
   (claim_C7 wsEx tsEx vsEx postDown reqEmpty).2.2.2.2.1 rfl,
   (claim_C7 wsEx tsEx vsNoTok postDown reqDec31).2.2.2.2.2 rfl⟩

/-- Claim C8: with a phone number and configured credentials, the WhatsApp
sender performs exactly one post, to base_url/phone_number_id/messages
with bearer-token authorization, and its JSON body is a template-typed
message with exactly one body component whose three text parameters are,
in order, expiry_type, the formatted expiry date, and action_steps, the
template language code being the request locale. -/
theorem claim_C8 (ws : WhatsAppConfig) (post : HttpPost) (req : NotificationRequest)
    (h1 : falsy req.recipient_phone_number = false)
    (h2 : falsy ws.access_token = false)
    (h3 : falsy ws.from_phone_number_id = false) :
    (WhatsAppSender.send ws post req).2 = [WhatsAppSender.httpCall ws req] ∧
    (WhatsAppSender.httpCall ws req).url
      = ws.api_url ++ "/" ++ pyStrOpt ws.from_phone_number_id ++ "/messages" ∧
    (WhatsAppSender.httpCall ws req).headers
      = [("Authorization", "Bearer " ++ pyStrOpt ws.access_token),
         ("Content-Type", "application/json")] ∧
    Json.get (WhatsAppSender.httpCall ws req).payload "type" = some (.str "template") ∧
    whatsAppLanguageCode (WhatsAppSender.httpCall ws req).payload
      = some (.str req.locale) ∧
    ((whatsAppComponents (WhatsAppSender.httpCall ws req).payload).bind
        (fun cs => Json.item cs 0)).bind (fun b => Json.get b "type")
      = some (.str "body") ∧
    (whatsAppComponents (WhatsAppSender.httpCall ws req).payload).bind
        (fun cs => Json.item cs 1) = none ∧
    whatsAppBodyParam (WhatsAppSender.httpCall ws req).payload 0
      = some (.str req.expiry_type) ∧
    whatsAppBodyParam (WhatsAppSender.httpCall ws req).payload 1
      = some (.str (formatExpiryDate req.expiry_date)) ∧
    whatsAppBodyParam (WhatsAppSender.httpCall ws req).payload 2
      = some (.str req.action_steps) ∧
    whatsAppBodyParam (WhatsAppSender.httpCall ws req).payload 3 = none := by
  refine ⟨?_, rfl, rfl, rfl, rfl, rfl, rfl, rfl, rfl, rfl, rfl⟩
  unfold WhatsAppSender.send
  simp [h1, h2, h3]

/-- Witness for C8 at a fully configured sender and request. -/
theorem claim_C8_witness :
    (WhatsAppSender.send wsEx postDown reqDec31).2
      = [WhatsAppSender.httpCall wsEx reqDec31] ∧
    (WhatsAppSender.httpCall wsEx reqDec31).url
      = "https://graph.facebook.com/v19.0/12345/messages" ∧
    whatsAppBodyParam (WhatsAppSender.httpCall wsEx reqDec31).payload 1
      = some (Json.str "31-12-2025") := by
  have h := claim_C8 wsEx postDown reqDec31 rfl rfl rfl
  have hfmt : formatExpiryDate reqDec31.expiry_date = "31-12-2025" := by decide
  exact ⟨h.1, (h.2.1).trans (by decide),
         (h.2.2.2.2.2.2.2.2.1).trans (by rw [hfmt])⟩

/-- Claim C9 (the intent the dataclass field annotations document; the
Python class itself fails to define, see the code-bug record): every
construction reads back exactly the supplied field values, and omitted
fields take the documented defaults. -/
theorem claim_C9 (re rpn tcid vuid ms mb : Option String) (et : String)
    (ed : Option PyDate) (steps : String) (cs : List NotificationChannel)
    (loc : String) :
    ((NotificationRequest.mk re rpn tcid vuid ms mb et ed steps cs loc).recipient_email
        = re ∧
     (NotificationRequest.mk re rpn tcid vuid ms mb et ed steps cs loc).recipient_phone_number
        = rpn ∧
     (NotificationRequest.mk re rpn tcid vuid ms mb et ed steps cs loc).telegram_chat_id
        = tcid ∧
     (NotificationRequest.mk re rpn tcid vuid ms mb et ed steps cs loc).viber_user_id
        = vuid ∧
     (NotificationRequest.mk re rpn tcid vuid ms mb et ed steps cs loc).message_subject
        = ms ∧
     (NotificationRequest.mk re rpn tcid vuid ms mb et ed steps cs loc).message_body
        = mb ∧
     (NotificationRequest.mk re rpn tcid vuid ms mb et ed steps cs loc).expiry_type
        = et ∧
     (NotificationRequest.mk re rpn tcid vuid ms mb et ed steps cs loc).expiry_date
        = ed ∧
     (NotificationRequest.mk re rpn tcid vuid ms mb et ed steps cs loc).action_steps
        = steps ∧
     (NotificationRequest.mk re rpn tcid vuid ms mb et ed steps cs loc).channels
        = cs ∧
     (NotificationRequest.mk re rpn tcid vuid ms mb et ed steps cs loc).locale
        = loc) ∧
    (({ channels := cs } : NotificationRequest).expiry_type = "Certificate" ∧
     ({ channels := cs } : NotificationRequest).action_steps
        = "Please renew your credential." ∧
     ({ channels := cs } : NotificationRequest).locale = "en" ∧
     ({ channels := cs } : NotificationRequest).expiry_date = none ∧
     ({ channels := cs } : NotificationRequest).recipient_email = none ∧
     ({ channels := cs } : NotificationRequest).channels = cs) :=
  ⟨⟨rfl, rfl, rfl, rfl, rfl, rfl, rfl, rfl, rfl, rfl, rfl⟩,
   ⟨rfl, rfl, rfl, rfl, rfl, rfl⟩⟩

/-- Claim C10: an empty-string addressing field or empty-string credential
is treated exactly like an absent one, because the guards test Python
falsiness: send returns false with zero outbound calls. -/
theorem claim_C10 (ws : WhatsAppConfig) (ts : TelegramConfig) (vs : ViberConfig)
    (post : HttpPost) (req : NotificationRequest) :
    (req.recipient_phone_number = some "" →
      WhatsAppSender.send ws post req = (false, [])) ∧
    (ws.access_token = some "" →
      WhatsAppSender.send ws post req = (false, [])) ∧
    (req.telegram_chat_id = some "" →
      TelegramSender.send ts post req = (false, [])) ∧
    (ts.bot_token = some "" →
      TelegramSender.send ts post req = (false, [])) ∧
    (req.viber_user_id = some "" →
      ViberSender.send vs post req = (false, [])) ∧
    (vs.auth_token = some "" →
      ViberSender.send vs post req = (false, [])) := by
  refine ⟨?_, ?_, ?_, ?_, ?_, ?_⟩
  · intro h
    simp [WhatsAppSender.send, h, falsy]
  · intro h
    unfold WhatsAppSender.send
    cases h1 : falsy req.recipient_phone_number with
    | true => simp [h1]
    | false => simp [h1, h, falsy]
  · intro h
    simp [TelegramSender.send, h, falsy]
  · intro h
    unfold TelegramSender.send
    cases h1 : falsy req.telegram_chat_id with
    | true => simp [h1]
    | false => simp [h1, h, falsy]
  · intro h
    simp [ViberSender.send, h, falsy]
  · intro h
    unfold ViberSender.send
    cases h1 : falsy req.viber_user_id with
    | true => simp [h1]
    | false => simp [h1, h, falsy]

/-- Witness for C10: empty-string addressing fields and empty-string
tokens at concrete configs and requests. -/
theorem claim_C10_witness :
    WhatsAppSender.send wsEx postDown reqEmptyAddr = (false, []) ∧
    WhatsAppSender.send wsEmptyTok postDown reqDec31 = (false, []) ∧
    TelegramSender.send tsEx postDown reqEmptyAddr = (false, []) ∧
    TelegramSender.send tsEmptyTok postDown reqDec31 = (false, []) ∧
    ViberSender.send vsEx postDown reqEmptyAddr = (false, []) ∧
    ViberSender.send vsEmptyTok postDown reqDec31 = (false, []) :=
  ⟨(claim_C10 wsEx tsEx vsEx postDown reqEmptyAddr).1 rfl,
   (claim_C10 wsEmptyTok tsEx vsEx postDown reqDec31).2.1 rfl,
   (claim_C10 wsEx tsEx vsEx postDown reqEmptyAddr).2.2.1 rfl,
   (claim_C10 wsEx tsEmptyTok vsEx postDown reqDec31).2.2.2.1 rfl,
   (claim_C10 wsEx tsEx vsEx postDown reqEmptyAddr).2.2.2.2.1 rfl,
   (claim_C10 wsEx tsEx vsEmptyTok postDown reqDec31).2.2.2.2.2 rfl⟩
